import Mathlib

/-!
Verification of the schwabpy-api core against its specification.

Shallow embedding of the Python source:
* `schwab/utils.py`   — `parse_option_string`, `check_mkt_hours`, `CustomSocket`
  (send queue, `produce`, `_send_msg`, `consume`, initial `_request_id`)
* `schwab/auth.py`    — `TokenManager` (`is_refresh_token_expired`, `load`) and
  `SchwabAsyncOAuth.check_authentication`
* `schwab/streamer.py`— `StreamClient` (`request_format`, `subscribe_service`,
  `_is_login_success`, `connect`)
* `app.py`            — `market_status_interrupt` market gate predicate

Machine times (UTC datetimes, epoch timestamps) are modelled as `Int` seconds;
Python strings as `String`/`List Char`.
-/

namespace SchwabPy

/-! ## Option symbol transform (`schwab/utils.py`, `parse_option_string`) -/

/-- Index of the first decimal digit in a character list: the Python loop
`while i < len(input) and not input[i].isdigit(): i += 1`. -/
def firstDigitIdx : List Char → Nat
  | [] => 0
  | c :: cs => if c.isDigit then 0 else firstDigitIdx cs + 1

/-- Python `str.ljust(w, fill)`: pad on the right with `fill` up to width `w`
(no-op when the string is already at least that wide). -/
def ljust (s : List Char) (w : Nat) (fill : Char) : List Char :=
  s ++ List.replicate (w - s.length) fill

/-- `parse_option_string` on character lists, translated clause by clause from
`schwab/utils.py` lines 106–123: root is everything before the first digit,
left-justified to 6 with spaces; then 6 date characters; one option-type
character; the remaining strike digits left-justified to 8 with `'0'`. -/
def parse_option_chars (input : List Char) : List Char :=
  let i := firstDigitIdx input
  let symbol_root := ljust (input.take i) 6 ' '
  let date_str := (input.drop i).take 6
  let option_type := (input.drop (i + 6)).take 1
  let strike_price := ljust (input.drop (i + 7)) 8 '0'
  symbol_root ++ date_str ++ option_type ++ strike_price

/-- String-level wrapper matching the Python signature `str -> str`. -/
def parse_option_string (input : String) : String :=
  ⟨parse_option_chars input.data⟩

/-! ## Refresh-credential expiry (`schwab/auth.py`, `TokenManager`) -/

/-- The OAuth2 token payload fields the lifecycle manager manipulates
(`access_token`, `refresh_token`, `expires_at` as epoch seconds). -/
structure Tok where
  access_token : String
  refresh_token : String
  expires_at : Int
deriving Repr, DecidableEq

/-- Models authlib's `OAuth2Token.is_expired()` on the embedded clock:
the access credential is no longer usable once `now` reaches `expires_at`. -/
def Tok.is_expired (now : Int) (t : Tok) : Bool :=
  decide (t.expires_at ≤ now)

/-- `TokenManager` state: the credential payload (possibly absent) and the
out-of-band creation timestamp (`schwab/auth.py` lines 41–45). -/
structure TokenManager where
  token : Option Tok
  created_timestamp : Int
deriving Repr, DecidableEq

/-- Seconds in `timedelta(days=7)`. -/
def sevenDays : Int := 7 * 86400

/-- `TokenManager.is_refresh_token_expired` (`schwab/auth.py` lines 69–76):
`datetime.now(utc) > created_timestamp + timedelta(days=7)`. -/
def TokenManager.is_refresh_token_expired (now : Int) (tm : TokenManager) : Bool :=
  decide (now > tm.created_timestamp + sevenDays)

/-! ## Market gate (`app.py` `market_status_interrupt`, `schwab/utils.py`
`check_mkt_hours`) -/

/-- The gate condition of `market_status_interrupt` (`app.py` line 77):
`mkt_status["openTime"] <= now <= mkt_status["closeTime"]`; the event is set
exactly when this is true. -/
def market_status_gate (openTime closeTime now : Int) : Bool :=
  decide (openTime ≤ now ∧ now ≤ closeTime)

/-- `check_mkt_hours` (`schwab/utils.py` lines 126–142):
`True if open_time < current_time < close_time else False`. -/
def check_mkt_hours (openTime closeTime now : Int) : Bool :=
  decide (openTime < now ∧ now < closeTime)

/-! ## Stream request construction (`schwab/streamer.py` lines 75–108) -/

/-- Outbound envelope as built by `request_format`/`subscribe_service`.
The `requestid` field holds the numeric counter value; the Python code
serializes it with `str()` when placing it in the dict. -/
structure Envelope (P : Type) where
  service : String
  requestid : Nat
  command : String
  customerId : String
  correlId : String
  parameters : P
deriving Repr, DecidableEq

/-- `CustomSocket.__init__` (`schwab/utils.py` line 233): `self._request_id = 0`. -/
def customSocketInitialRequestId : Nat := 0

/-- Session identifiers `_stream_customer_id` / `_stream_correl_id`, parsed
once at login time. -/
structure StreamIds where
  customerId : String
  correlId : String

/-- `StreamClient.request_format`: reads the counter into the envelope and
increments it (`request_id = self._request_id; self._request_id += 1`).
Returns the envelope together with the updated counter. -/
def request_format {P : Type} (ids : StreamIds) (request_id : Nat)
    (service command : String) (params : P) : Envelope P × Nat :=
  (⟨service, request_id, command, ids.customerId, ids.correlId, params⟩, request_id + 1)

/-- The `service_dict` argument of `subscribe_service`. -/
structure ServiceDict (P : Type) where
  service : String
  command : String
  parameters : P

/-- `StreamClient.subscribe_service`: the same counter read-and-increment as
`request_format`, building the envelope that is wrapped in
`{"requests": [request]}` and produced. -/
def subscribe_service {P : Type} (ids : StreamIds) (request_id : Nat) (sd : ServiceDict P) :
    Envelope P × Nat :=
  (⟨sd.service, request_id, sd.command, ids.customerId, ids.correlId, sd.parameters⟩,
   request_id + 1)

/-- One request construction within a session: the login envelope built by
`request_format` in `connect`, or a subscription via `subscribe_service`.
Both share the session's single `_request_id` counter. -/
inductive StreamOp (P : Type)
  | login (service command : String) (params : P)
  | subscribe (sd : ServiceDict P)

/-- Dispatch one request construction on the shared counter. -/
def streamStep {P : Type} (ids : StreamIds) (request_id : Nat) :
    StreamOp P → Envelope P × Nat
  | .login service command params => request_format ids request_id service command params
  | .subscribe sd => subscribe_service ids request_id sd

/-- Run a session's sequence of request constructions from a given counter
value, collecting the envelopes in submission order. -/
def runStreamOps {P : Type} (ids : StreamIds) (request_id : Nat) :
    List (StreamOp P) → List (Envelope P) × Nat
  | [] => ([], request_id)
  | op :: ops =>
    let r := streamStep ids request_id op
    let rest := runStreamOps ids r.2 ops
    (r.1 :: rest.1, rest.2)

/-! ## Outbound FIFO path (`schwab/utils.py`, `CustomSocket`) -/

/-- State of the outbound path: the `asyncio.Queue` contents (FIFO, front at
the head) and the messages already written to the socket, in write order. -/
structure SendState where
  send_queue : List String
  wire : List String
deriving Repr, DecidableEq

/-- An event of the outbound path: `produce` enqueues a serialized message at
the tail (`CustomSocket.produce`, lines 298–301); `sendStep` is one iteration
of the `_send_msg` loop (lines 247–273) in which either the 2-second wait on
an empty queue times out and the loop re-checks, or the front message is
dequeued and `self._ws.send` writes it to the socket; `sendFail` is the
iteration in which `self._ws.send` raises `ConnectionClosed` after the front
message was already dequeued (lines 271–273): the error is caught and
logged, the loop continues, and that message is lost without ever reaching
the wire. Interleaving these events freely models arbitrary sender-loop
timing and connection behaviour. -/
inductive SendEvent
  | produce (m : String)
  | sendStep
  | sendFail
deriving Repr, DecidableEq

/-- Transition of the outbound path on one event. A `sendFail` with a
non-empty queue removes the front message without writing it (the dequeue
happened before the failing send); with an empty queue the wait times out
before any send can fail, so nothing changes. -/
def sendTransition (st : SendState) : SendEvent → SendState
  | .produce m => { st with send_queue := st.send_queue ++ [m] }
  | .sendStep =>
    match st.send_queue with
    | [] => st
    | m :: rest => { send_queue := rest, wire := st.wire ++ [m] }
  | .sendFail =>
    match st.send_queue with
    | [] => st
    | _ :: rest => { st with send_queue := rest }

/-- Run a sequence of outbound-path events. -/
def runSendEvents (st : SendState) (evs : List SendEvent) : SendState :=
  evs.foldl sendTransition st

/-- The messages produced within an event sequence, in submission order. -/
def producedMsgs (evs : List SendEvent) : List String :=
  evs.filterMap fun e => match e with
    | .produce m => some m
    | .sendStep => none
    | .sendFail => none

/-! ## Credential store and `check_authentication` (`schwab/auth.py`) -/

/-- A record persisted in the credential store by `TokenManager.save`:
`{"created_timestamp": ..., "token": ...}` under the fixed key. -/
structure StoredToken where
  created_timestamp : Int
  token : Tok
deriving Repr, DecidableEq

/-- The two errors `TokenManager.load` raises: `TypeError` when the key holds
no record, `ValueError` when there is no connection to the database. -/
inductive LoadError
  | notFound          -- TypeError("Token ... not available")
  | storeUnreachable  -- ValueError("No connection to database")
deriving Repr, DecidableEq

/-- `TokenManager.load` (`schwab/auth.py` lines 93–112) over the store as it
sees it: `none` models a failed `connect_db()` (the `r is None` check),
`some none` a reachable store whose `get` returns nothing, `some (some d)` a
reachable store holding record `d`. On success the manager's `token` and
`created_timestamp` are replaced by the loaded record. -/
def TokenManager.load (store : Option (Option StoredToken)) :
    Except LoadError TokenManager :=
  match store with
  | none => .error .storeUnreachable
  | some none => .error .notFound
  | some (some d) => .ok ⟨some d.token, d.created_timestamp⟩

/-- Environment of one `check_authentication` run: the clock, the credential
store, the token the provider's refresh endpoint would return, and the token
the interactive manual re-authorization flow would produce. -/
structure AuthEnv where
  now : Int
  store : Option (Option StoredToken)
  providerTok : Tok
  manualTok : Tok
deriving Repr, DecidableEq

/-- Result of a completed `check_authentication` run: the credential the
caller is left with, the final manager state, how many provider refresh calls
and manual re-authorizations happened, and the records written by `save`. -/
structure AuthResult where
  token : Tok
  metadata : TokenManager
  refreshCalls : Nat
  manualAuths : Nat
  saves : List (Int × Tok)
deriving Repr, DecidableEq

/-- `manual_authentication` (`schwab/auth.py` lines 157–181): fetch a new
token interactively, rebuild the manager with a fresh `created_timestamp`
(`TokenManager(self.token)` stamps `datetime.now`), and `save` it. Returns
the new manager and the record written. -/
def manual_authentication (env : AuthEnv) : TokenManager × List (Int × Tok) :=
  (⟨some env.manualTok, env.now⟩, [(env.now, env.manualTok)])

/-- Lines 193–199 of `check_authentication`: when there is no in-memory token
or it is expired, `load()`; a `TypeError` (record not found) triggers
`manual_authentication`, a `ValueError` (no store connection) re-raises as a
hard failure. Returns the manager to continue with, the number of manual
re-authorizations performed, and the records saved. -/
def auth_load_phase (env : AuthEnv) (token0 : Option Tok) (tm0 : TokenManager) :
    Except String (TokenManager × Nat × List (Int × Tok)) :=
  if token0.isNone || token0.elim false (Tok.is_expired env.now) then
    match TokenManager.load env.store with
    | .ok tm => .ok (tm, 0, [])
    | .error .notFound =>
      let r := manual_authentication env
      .ok (r.1, 1, r.2)
    | .error .storeUnreachable => .error "Error connecting to database."
  else
    .ok (tm0, 0, [])

/-- Lines 201–222 of `check_authentication`: take the manager's token; if the
access token is still valid, return; else if the refresh token is still
valid, call the provider's refresh endpoint, replace only the manager's
`token` field, and `save`; else run `manual_authentication`. A manager
holding no token would crash Python on `self.token.is_expired()`, modelled as
an error. -/
def auth_refresh_phase (env : AuthEnv) (tm1 : TokenManager) :
    Except String AuthResult :=
  match tm1.token with
  | none => .error "AttributeError"
  | some t1 =>
    if Tok.is_expired env.now t1 = false then
      .ok ⟨t1, tm1, 0, 0, []⟩
    else if TokenManager.is_refresh_token_expired env.now tm1 = false then
      .ok ⟨env.providerTok, { tm1 with token := some env.providerTok }, 1, 0,
           [(tm1.created_timestamp, env.providerTok)]⟩
    else
      let r := manual_authentication env
      .ok ⟨env.manualTok, r.1, 0, 1, r.2⟩

/-- `SchwabAsyncOAuth.check_authentication` (`schwab/auth.py` lines 187–222):
the load phase followed by the refresh phase, accumulating manual
re-authorization counts and saved records. -/
def check_authentication (env : AuthEnv) (token0 : Option Tok) (tm0 : TokenManager) :
    Except String AuthResult :=
  match auth_load_phase env token0 tm0 with
  | .error e => .error e
  | .ok (tm1, m1, saves1) =>
    match auth_refresh_phase env tm1 with
    | .error e => .error e
    | .ok r => .ok { r with manualAuths := r.manualAuths + m1, saves := saves1 ++ r.saves }

/-! ## Interleaved callers of `check_authentication` (C7)

`check_authentication` takes no lock (the source's own TODO notes the
operation "should be blocking"). The refresh path decomposes into two atomic
actions separated by an `await`: first read `self.token` and test
`is_expired()`, then call the provider's refresh endpoint and write the
shared token. Concurrent callers interleave these actions freely on the
shared state. -/

/-- Program counter of one caller on the refresh path. -/
inductive CallerPc
  | start       -- about to test self.token.is_expired()
  | refreshing  -- saw an expired token, about to refresh and write
  | done
deriving Repr, DecidableEq

/-- One caller: its position in the code and the credential it ends up
observing. -/
structure Caller where
  pc : CallerPc
  observed : Option Tok
deriving Repr, DecidableEq

/-- The state shared by all callers: the session token, how many refresh
calls have reached the provider, and a counter from which the provider mints
distinct fresh tokens. -/
structure SharedAuth where
  token : Tok
  refreshCalls : Nat
  freshCounter : Nat
deriving Repr, DecidableEq

/-- The distinct token the provider's refresh endpoint mints on its `n`-th
call: fresh credentials with a new 30-minute expiry. -/
def mintTok (now : Int) (n : Nat) : Tok :=
  ⟨"access" ++ toString n, "refresh" ++ toString n, now + 1800⟩

/-- One atomic action of one caller of `check_authentication`. -/
def authStep (now : Int) (sh : SharedAuth) (c : Caller) : SharedAuth × Caller :=
  match c.pc with
  | .start =>
    if Tok.is_expired now sh.token then
      (sh, { c with pc := .refreshing })
    else
      (sh, ⟨.done, some sh.token⟩)
  | .refreshing =>
    let t := mintTok now sh.freshCounter
    (⟨t, sh.refreshCalls + 1, sh.freshCounter + 1⟩, ⟨.done, some t⟩)
  | .done => (sh, c)

/-- A world of concurrent callers over the shared state. -/
structure AuthWorld where
  shared : SharedAuth
  callers : List Caller
deriving Repr, DecidableEq

/-- Run a schedule: each entry names the caller that performs its next atomic
action (out-of-range entries are no-ops). -/
def runSchedule (now : Int) (w : AuthWorld) : List Nat → AuthWorld
  | [] => w
  | i :: rest =>
    match w.callers.get? i with
    | none => runSchedule now w rest
    | some c =>
      let r := authStep now w.shared c
      runSchedule now ⟨r.1, w.callers.set i r.2⟩ rest

/-- Run one caller's actions to completion before yielding (a serialized
invocation: both of its atomic actions happen back to back). -/
def runCallerToCompletion (now : Int) (sh : SharedAuth) (c : Caller) :
    SharedAuth × Caller :=
  let r1 := authStep now sh c
  authStep now r1.1 r1.2

/-- Serialized execution: each caller completes before the next begins. -/
def runSerial (now : Int) (sh : SharedAuth) : List Caller → SharedAuth × List Caller
  | [] => (sh, [])
  | c :: cs =>
    let r1 := runCallerToCompletion now sh c
    let r2 := runSerial now r1.1 cs
    (r2.1, r1.2 :: r2.2)

/-! ## Login handshake (`schwab/streamer.py` lines 34–50 and 111–134) -/

/-- A poll result inside `_is_login_success`: `Option.none` is a falsy
`consume` result (empty dict, or `None` from a decode failure); `malformed`
a message without the `response[0].content.code` path (the `KeyError`
branch); `wellFormed code` a login response carrying status `code`. -/
inductive LoginMsg
  | malformed
  | wellFormed (code : Int)
deriving Repr, DecidableEq

/-- `StreamClient._is_login_success`: poll `consume`, skipping falsy results,
until a message arrives; then return `code == 0`; on a `KeyError` the
function falls off the end and returns Python `None` (`Option.none`). An
exhausted stream models a handshake that never answers (the Python loop
would poll forever). -/
def is_login_success : List (Option LoginMsg) → Option Bool
  | [] => none
  | none :: rest => is_login_success rest
  | some .malformed :: _ => none
  | some (.wellFormed code) :: _ => some (decide (code = 0))

/-- The debug log lines `connect` emits after the handshake check
(`schwab/streamer.py` lines 131–134): when the check is not `True` it logs
`"LOGIN FAILED."`, and then — there being no `else`, `return`, or `raise` —
it always logs `"LOGIN SUCCESS."`. -/
def connect_handshake_logs (stream : List (Option LoginMsg)) : List String :=
  (if is_login_success stream = some true then [] else ["LOGIN FAILED."]) ++
    ["LOGIN SUCCESS."]

/-! ## Inbound `consume` (`schwab/utils.py` lines 303–313) -/

/-- Outcome of one `CustomSocket.consume` call: the value returned to the
caller, the receive queue left behind, and whether `task_done()` ran. -/
structure ConsumeOut (J : Type) where
  result : Option J
  queueAfter : List String
  taskDone : Bool
deriving Repr, DecidableEq

/-- `CustomSocket.consume`, parametric in the `json.loads` decoder (an
external library call that either returns a value or raises
`json.JSONDecodeError`, modelled as `Except`). On a decode error the
exception is caught and logged, the `finally` block still marks the queue
item done, and the function returns Python `None`; the Lean function is
total, so no exception escapes to the caller. An empty queue blocks in
Python, modelled as returning with nothing consumed and nothing marked
done. -/
def CustomSocket.consume {J : Type} (loads : String → Except String J) :
    List String → ConsumeOut J
  | [] => ⟨none, [], false⟩
  | m :: rest =>
    match loads m with
    | .ok j => ⟨some j, rest, true⟩
    | .error _ => ⟨none, rest, true⟩

/-! ## Theorems about the option symbol transform -/

/-- The digit scan stops exactly at the end of a digit-free root when the next
character is a digit. -/
theorem firstDigitIdx_append (root : List Char) (d : Char) (rest : List Char)
    (hroot : ∀ c ∈ root, c.isDigit = false) (hd : d.isDigit = true) :
    firstDigitIdx (root ++ d :: rest) = root.length := by
  induction root with
  | nil => simp [firstDigitIdx, hd]
  | cons c cs ih =>
    have hc := hroot c (by simp)
    simp [firstDigitIdx, hc, ih (fun x hx => hroot x (by simp [hx]))]

/-- Structural description of `parse_option_chars` on a well-formed compact
identifier `<ROOT><YYMMDD><C|P><STRIKE>`. -/
theorem parse_option_chars_structure (root date strike : List Char) (t : Char)
    (hroot : ∀ c ∈ root, c.isDigit = false)
    (hdate6 : date.length = 6)
    (hdated : ∀ c ∈ date, c.isDigit = true) :
    parse_option_chars (root ++ date ++ t :: strike) =
      ljust root 6 ' ' ++ date ++ [t] ++ ljust strike 8 '0' := by
  have hne : date ≠ [] := by intro h; simp [h] at hdate6
  obtain ⟨d, tl, rfl⟩ := List.exists_cons_of_ne_nil hne
  have hd : d.isDigit = true := hdated d (by simp)
  have hidx : firstDigitIdx (root ++ (d :: tl) ++ t :: strike) = root.length := by
    rw [List.append_assoc]
    exact firstDigitIdx_append root d (tl ++ t :: strike) hroot hd
  have h1 : (root ++ (d :: tl) ++ t :: strike).take root.length = root := by
    rw [List.append_assoc]; exact List.take_left root _
  have h2 : (root ++ (d :: tl) ++ t :: strike).drop root.length = (d :: tl) ++ t :: strike := by
    rw [List.append_assoc]; exact List.drop_left root _
  have h3 : ((d :: tl) ++ t :: strike).take 6 = d :: tl := List.take_left' hdate6
  have hlen : tl.length + 1 = 6 := by simpa using hdate6
  have h4 : (root ++ (d :: tl) ++ t :: strike).drop (root.length + 6) = t :: strike :=
    List.drop_left' (by simp; omega)
  have h5 : (root ++ (d :: tl) ++ t :: strike).drop (root.length + 7) = strike := by
    have hsplit : root ++ (d :: tl) ++ t :: strike = (root ++ (d :: tl) ++ [t]) ++ strike := by
      simp
    rw [hsplit]
    exact List.drop_left' (by simp; omega)
  simp only [parse_option_chars, hidx, h1, h2, h3, h4, h5, List.take_cons, List.take_zero]
  simp

/-- C1: on a compact identifier `<ROOT><YYMMDD><C|P><STRIKE>` with a digit-free
root and a 6-digit date, the transform emits the root left-justified to 6 with
spaces, the date unchanged, the option-type character, and the strike
left-justified to 8 with trailing zeros; in particular
`"AAPL241115C00200" ↦ "AAPL  241115C00200000"` and
`"GOOG250101P01500" ↦ "GOOG  250101P01500000"`. -/
theorem claim_C1_option_symbol_transform (root date strike : List Char) (t : Char)
    (hroot : ∀ c ∈ root, c.isDigit = false)
    (hdate6 : date.length = 6)
    (hdated : ∀ c ∈ date, c.isDigit = true) :
    parse_option_chars (root ++ date ++ t :: strike) =
      ljust root 6 ' ' ++ date ++ [t] ++ ljust strike 8 '0' ∧
    parse_option_string "AAPL241115C00200" = "AAPL  241115C00200000" ∧
    parse_option_string "GOOG250101P01500" = "GOOG  250101P01500000" :=
  ⟨parse_option_chars_structure root date strike t hroot hdate6 hdated,
   by decide, by decide⟩

/-- Witness for C1 at the concrete identifier `AAPL241115C00200`. -/
theorem claim_C1_option_symbol_transform_witness :
    parse_option_chars ("AAPL".data ++ "241115".data ++ 'C' :: "00200".data) =
      ljust "AAPL".data 6 ' ' ++ "241115".data ++ ['C'] ++ ljust "00200".data 8 '0' ∧
    parse_option_string "AAPL241115C00200" = "AAPL  241115C00200000" ∧
    parse_option_string "GOOG250101P01500" = "GOOG  250101P01500000" :=
  claim_C1_option_symbol_transform "AAPL".data "241115".data "00200".data 'C'
    (by decide) (by decide) (by decide)

/-! ## Theorems about the refresh-credential expiry boundary (C3) -/

/-- C3 counterexample: at exactly `created_timestamp + 7 days` the code still
reports the refresh credential as unexpired (valid), although
`now ≥ created_timestamp + 7 days` holds, so "invalid at the exact boundary"
fails on the code. -/
theorem claim_C3_counterexample :
    TokenManager.is_refresh_token_expired 604800 ⟨none, 0⟩ = false ∧
    (604800 : Int) ≥ 0 + sevenDays := by decide

/-- C3 (amended): the refresh credential is reported expired iff
`now > created_timestamp + 7 days` (strict); at the exact boundary it is
still reported valid. -/
theorem claim_C3_refresh_validity (now : Int) (tm : TokenManager) :
    (TokenManager.is_refresh_token_expired now tm = true ↔
      now > tm.created_timestamp + sevenDays) ∧
    TokenManager.is_refresh_token_expired (tm.created_timestamp + sevenDays) tm = false := by
  constructor
  · simp [TokenManager.is_refresh_token_expired]
  · simp [TokenManager.is_refresh_token_expired]

/-! ## Theorems about the market gate boundaries (C4) -/

/-- C4 counterexample: for the window `[10:00, 16:00]` UTC (36000 and 57600
seconds into the day), the gate of `market_status_interrupt` is still set at
exactly `closeTime`, and the helper `check_mkt_hours` is clear at exactly
`openTime` — both contradict the claimed half-open `[open, close)` window. -/
theorem claim_C4_counterexample :
    market_status_gate 36000 57600 57600 = true ∧
    check_mkt_hours 36000 57600 36000 = false := by decide

/-- C4 (amended): the `market_status_interrupt` gate is set exactly on the
closed interval `openTime ≤ now ≤ closeTime` (so it is still set at exactly
`closeTime`), while `check_mkt_hours` holds exactly on the open interval
`openTime < now < closeTime` (so it is clear at exactly `openTime` and
`closeTime`). -/
theorem claim_C4_market_gate (openT closeT now : Int) :
    (market_status_gate openT closeT now = true ↔ openT ≤ now ∧ now ≤ closeT) ∧
    (check_mkt_hours openT closeT now = true ↔ openT < now ∧ now < closeT) := by
  constructor
  · simp [market_status_gate]
  · simp [check_mkt_hours]

/-! ## Theorems about request-id assignment (C5) -/

/-- Both request constructors stamp the current counter on the envelope and
advance the counter by one. -/
theorem streamStep_requestid {P : Type} (ids : StreamIds) (n : Nat) (op : StreamOp P) :
    (streamStep ids n op).1.requestid = n ∧ (streamStep ids n op).2 = n + 1 := by
  cases op <;> simp [streamStep, request_format, subscribe_service]

/-- The request ids handed out from counter value `n` are exactly
`n, n+1, …` in submission order. -/
theorem runStreamOps_ids {P : Type} (ids : StreamIds) (ops : List (StreamOp P)) :
    ∀ n, ((runStreamOps ids n ops).1.map Envelope.requestid) = List.range' n ops.length := by
  induction ops with
  | nil => intro n; simp [runStreamOps]
  | cons op ops ih =>
    intro n
    obtain ⟨h1, h2⟩ := streamStep_requestid ids n op
    simp [runStreamOps, h1, h2, ih, List.range'_succ]

/-- C5: within one session, every login/subscription envelope receives a
`requestid` drawn from the shared counter: the ids are consecutive starting
from the session's initial counter value (`_request_id = 0` at construction),
strictly increasing in submission order, and pairwise distinct. -/
theorem claim_C5_request_ids {P : Type} (ids : StreamIds) (ops : List (StreamOp P)) :
    ((runStreamOps ids customSocketInitialRequestId ops).1.map Envelope.requestid) =
      List.range' customSocketInitialRequestId ops.length ∧
    List.Pairwise (· < ·)
      ((runStreamOps ids customSocketInitialRequestId ops).1.map Envelope.requestid) ∧
    ((runStreamOps ids customSocketInitialRequestId ops).1.map Envelope.requestid).Nodup := by
  have h := runStreamOps_ids ids ops customSocketInitialRequestId
  refine ⟨h, ?_, ?_⟩
  · rw [h]; exact List.pairwise_lt_range' customSocketInitialRequestId ops.length
  · rw [h]
    exact (List.pairwise_lt_range' customSocketInitialRequestId ops.length).imp Nat.ne_of_lt

/-! ## Theorems about outbound FIFO ordering (C6) -/

/-- Trace invariant of the outbound path with connection failures: the wire
output followed by the still-queued messages is always a subsequence — order
preserved, possibly with send-failure losses — of the prior contents followed
by everything produced. -/
theorem send_sublist_invariant (evs : List SendEvent) :
    ∀ st : SendState,
      ((runSendEvents st evs).wire ++ (runSendEvents st evs).send_queue).Sublist
        (st.wire ++ (st.send_queue ++ producedMsgs evs)) := by
  induction evs with
  | nil => intro st; simp [runSendEvents, producedMsgs]
  | cons e evs ih =>
    intro st
    have hrun : runSendEvents st (e :: evs) = runSendEvents (sendTransition st e) evs := rfl
    cases e with
    | produce m =>
      rw [hrun]
      refine (ih _).trans ?_
      simp [sendTransition, producedMsgs, List.filterMap_cons]
    | sendStep =>
      rw [hrun]
      refine (ih _).trans ?_
      cases hq : st.send_queue with
      | nil => simp [sendTransition, hq, producedMsgs, List.filterMap_cons]
      | cons m rest => simp [sendTransition, hq, producedMsgs, List.filterMap_cons]
    | sendFail =>
      rw [hrun]
      refine (ih _).trans ?_
      cases hq : st.send_queue with
      | nil => simp [sendTransition, hq, producedMsgs, List.filterMap_cons]
      | cons m rest =>
        simp only [sendTransition, hq, producedMsgs, List.filterMap_cons,
          List.cons_append, List.append_assoc]
        exact List.Sublist.append_left (List.sublist_cons_self m _) st.wire

/-- Trace invariant of the outbound path in the absence of send failures: the
wire output followed by the still-queued messages equals the prior contents
followed by everything produced, in submission order. -/
theorem send_invariant (evs : List SendEvent) :
    ∀ st : SendState, (∀ e ∈ evs, e ≠ SendEvent.sendFail) →
      (runSendEvents st evs).wire ++ (runSendEvents st evs).send_queue =
        st.wire ++ (st.send_queue ++ producedMsgs evs) := by
  induction evs with
  | nil => intro st _; simp [runSendEvents, producedMsgs]
  | cons e evs ih =>
    intro st hok
    have hok' : ∀ x ∈ evs, x ≠ SendEvent.sendFail :=
      fun x hx => hok x (List.mem_cons_of_mem _ hx)
    have hrun : runSendEvents st (e :: evs) = runSendEvents (sendTransition st e) evs := rfl
    cases e with
    | produce m =>
      rw [hrun, ih _ hok']
      simp [sendTransition, producedMsgs, List.filterMap_cons]
    | sendStep =>
      rw [hrun, ih _ hok']
      cases hq : st.send_queue with
      | nil => simp [sendTransition, hq, producedMsgs, List.filterMap_cons]
      | cons m rest => simp [sendTransition, hq, producedMsgs, List.filterMap_cons]
    | sendFail => exact absurd rfl (hok .sendFail (List.mem_cons_self _ _))

/-- C6 counterexample: in the trace that enqueues `m1, m2, m3` where the
send of `m2` raises `ConnectionClosed` after the dequeue (`sendFail`), the
queue is fully drained yet the wire carries only `[m1, m3]`, not the produced
sequence `[m1, m2, m3]` — the sender loop did not write every enqueued
message to the wire. -/
theorem claim_C6_counterexample :
    (runSendEvents ⟨[], []⟩
        [.produce "m1", .produce "m2", .sendStep, .sendFail, .produce "m3",
         .sendStep]).send_queue = [] ∧
    (runSendEvents ⟨[], []⟩
        [.produce "m1", .produce "m2", .sendStep, .sendFail, .produce "m3",
         .sendStep]).wire = ["m1", "m3"] ∧
    decide ((runSendEvents ⟨[], []⟩
        [.produce "m1", .produce "m2", .sendStep, .sendFail, .produce "m3",
         .sendStep]).wire =
      producedMsgs
        [.produce "m1", .produce "m2", .sendStep, .sendFail, .produce "m3",
         .sendStep]) = false := by
  decide

/-- C6 (amended): starting from an empty outbound queue, after any
interleaving of `produce` calls and sender-loop iterations — including
iterations whose socket send fails after the dequeue, losing that message —
the messages that do reach the wire appear in enqueue order: the wire
followed by the still-queued messages (and hence the wire itself) is a
subsequence of the produced sequence. In any trace without send failures the
wire and queue together equal the produced messages exactly, so once the
queue is drained the wire is exactly the enqueued sequence in FIFO order,
regardless of sender-loop timing. -/
theorem claim_C6_outbound_fifo (evs : List SendEvent) :
    ((runSendEvents ⟨[], []⟩ evs).wire ++
      (runSendEvents ⟨[], []⟩ evs).send_queue).Sublist (producedMsgs evs) ∧
    ((runSendEvents ⟨[], []⟩ evs).wire).Sublist (producedMsgs evs) ∧
    ((∀ e ∈ evs, e ≠ SendEvent.sendFail) →
      (runSendEvents ⟨[], []⟩ evs).wire ++ (runSendEvents ⟨[], []⟩ evs).send_queue =
        producedMsgs evs) ∧
    ((∀ e ∈ evs, e ≠ SendEvent.sendFail) →
      (runSendEvents ⟨[], []⟩ evs).send_queue = [] →
      (runSendEvents ⟨[], []⟩ evs).wire = producedMsgs evs) := by
  have hsub := send_sublist_invariant evs ⟨[], []⟩
  simp only [List.nil_append] at hsub
  refine ⟨hsub, (List.sublist_append_left _ _).trans hsub, fun hok => ?_, fun hok hdrain => ?_⟩
  · have h := send_invariant evs ⟨[], []⟩ hok
    simpa using h
  · have h := send_invariant evs ⟨[], []⟩ hok
    rw [hdrain] at h
    simpa using h

/-- Witness for C6 (amended) on the failure-free concrete trace that
enqueues `m1, m2, m3` with sender-loop steps interleaved and finally
drained. -/
theorem claim_C6_outbound_fifo_witness :
    (runSendEvents ⟨[], []⟩
        [.produce "m1", .produce "m2", .sendStep, .produce "m3", .sendStep, .sendStep]).wire =
      producedMsgs
        [.produce "m1", .produce "m2", .sendStep, .produce "m3", .sendStep, .sendStep] :=
  (claim_C6_outbound_fifo
    [.produce "m1", .produce "m2", .sendStep, .produce "m3", .sendStep, .sendStep]).2.2.2
    (by decide) (by decide)

/-! ## Theorems about the login handshake (C2) -/

/-- C2: the handshake check itself returns success exactly for status code 0
(and no success for a malformed response), but on a failing code `connect`
only logs `"LOGIN FAILED."` and then — lacking an `else`, `return`, or
`raise` — proceeds to log `"LOGIN SUCCESS."` as well: the session attempt is
never marked failed, so nothing prevents subscriptions from being sent on
that attempt. Evaluated at the failing login response with status code 3 and
at a malformed response, against the success case with code 0. -/
theorem claim_C2_login_bug :
    is_login_success [none, some (.wellFormed 3)] = some false ∧
    connect_handshake_logs [none, some (.wellFormed 3)] =
      ["LOGIN FAILED.", "LOGIN SUCCESS."] ∧
    is_login_success [some .malformed] = none ∧
    connect_handshake_logs [some .malformed] = ["LOGIN FAILED.", "LOGIN SUCCESS."] ∧
    is_login_success [none, some (.wellFormed 0)] = some true ∧
    connect_handshake_logs [none, some (.wellFormed 0)] = ["LOGIN SUCCESS."] := by
  decide

/-! ## Theorems about concurrent `check_authentication` (C7) -/

/-- C7 counterexample: two callers of `check_authentication` interleaved
around the un-locked expiry test (schedule `[0, 1, 0, 1]`) both observe the
expired token and both call the provider's refresh endpoint: two refresh
calls are made and the callers observe different credentials, refuting
single-flight. -/
theorem claim_C7_counterexample :
    (runSchedule 1000
        ⟨⟨⟨"a0", "r0", 1000⟩, 0, 0⟩, [⟨.start, none⟩, ⟨.start, none⟩]⟩
        [0, 1, 0, 1]).shared.refreshCalls = 2 ∧
    (runSchedule 1000
        ⟨⟨⟨"a0", "r0", 1000⟩, 0, 0⟩, [⟨.start, none⟩, ⟨.start, none⟩]⟩
        [0, 1, 0, 1]).callers.map Caller.observed =
      [some (mintTok 1000 0), some (mintTok 1000 1)] ∧
    decide (mintTok 1000 0 = mintTok 1000 1) = false := by
  decide

/-- Once the shared token is valid, serialized callers observe it without
refreshing. -/
theorem runSerial_valid_token (now : Int) (sh : SharedAuth)
    (hval : Tok.is_expired now sh.token = false) (m : Nat) :
    runSerial now sh (List.replicate m ⟨.start, none⟩) =
      (sh, List.replicate m ⟨.done, some sh.token⟩) := by
  induction m with
  | zero => simp [runSerial]
  | succ m ih =>
    simp [List.replicate_succ, runSerial, runCallerToCompletion, authStep, hval, ih]

/-- C7 (amended): `check_authentication` is not single-flight under
interleaving, but when `N ≥ 1` invocations are serialized (each completes
before the next begins) starting from an expired shared token, exactly one
refresh call is made and every caller observes the same resulting
credential. -/
theorem claim_C7_single_flight (n : Nat) (now : Int) (t0 : Tok)
    (hexp : Tok.is_expired now t0 = true) :
    (runSerial now ⟨t0, 0, 0⟩ (List.replicate (n + 1) ⟨.start, none⟩)).1.refreshCalls = 1 ∧
    ∀ c ∈ (runSerial now ⟨t0, 0, 0⟩ (List.replicate (n + 1) ⟨.start, none⟩)).2,
      c.observed = some (mintTok now 0) := by
  have hfresh : Tok.is_expired now (mintTok now 0) = false := by
    simp [Tok.is_expired, mintTok]
  have hfirst : runCallerToCompletion now ⟨t0, 0, 0⟩ ⟨.start, none⟩ =
      (⟨mintTok now 0, 1, 1⟩, ⟨.done, some (mintTok now 0)⟩) := by
    simp [runCallerToCompletion, authStep, hexp]
  rw [List.replicate_succ]
  simp only [runSerial, hfirst]
  rw [runSerial_valid_token now ⟨mintTok now 0, 1, 1⟩ hfresh n]
  constructor
  · rfl
  · intro c hc
    rcases List.mem_cons.mp hc with h | h
    · rw [h]
    · exact (List.eq_of_mem_replicate h) ▸ rfl

/-- Witness for C7 (amended) with three serialized callers and a concretely
expired initial token. -/
theorem claim_C7_single_flight_witness :
    (runSerial 1000 ⟨⟨"a0", "r0", 1000⟩, 0, 0⟩
        (List.replicate 3 ⟨.start, none⟩)).1.refreshCalls = 1 ∧
    ∀ c ∈ (runSerial 1000 ⟨⟨"a0", "r0", 1000⟩, 0, 0⟩
        (List.replicate 3 ⟨.start, none⟩)).2,
      c.observed = some (mintTok 1000 0) :=
  claim_C7_single_flight 2 1000 ⟨"a0", "r0", 1000⟩ (by decide)

/-! ## Theorems about credential-load error signalling (C8) -/

/-- C8: `TokenManager.load` signals "record not found" (`TypeError`,
`LoadError.notFound`) distinctly from "store unreachable" (`ValueError`,
`LoadError.storeUnreachable`), and `check_authentication` reacts to the
former by running manual re-authorization and to the latter by raising the
hard failure `"Error connecting to database."`. -/
theorem claim_C8_load_errors (now : Int) (pTok mTok : Tok)
    (tm0 : TokenManager) (d : StoredToken) :
    TokenManager.load none = .error .storeUnreachable ∧
    TokenManager.load (some none) = .error .notFound ∧
    TokenManager.load (some (some d)) = .ok ⟨some d.token, d.created_timestamp⟩ ∧
    decide (LoadError.notFound = LoadError.storeUnreachable) = false ∧
    check_authentication ⟨now, none, pTok, mTok⟩ none tm0 =
      .error "Error connecting to database." ∧
    (∃ r, check_authentication ⟨now, some none, pTok, mTok⟩ none tm0 = .ok r ∧
      1 ≤ r.manualAuths) := by
  refine ⟨rfl, rfl, rfl, by decide, rfl, ?_⟩
  by_cases h1 : Tok.is_expired now mTok = false
  · refine ⟨⟨mTok, ⟨some mTok, now⟩, 0, 1, [(now, mTok)]⟩, ?_, by simp⟩
    simp [check_authentication, auth_load_phase, auth_refresh_phase,
      manual_authentication, TokenManager.load, h1]
  · rw [Bool.not_eq_false] at h1
    by_cases h2 : TokenManager.is_refresh_token_expired now ⟨some mTok, now⟩ = false
    · refine ⟨⟨pTok, ⟨some pTok, now⟩, 1, 1, [(now, mTok), (now, pTok)]⟩, ?_, by simp⟩
      simp [check_authentication, auth_load_phase, auth_refresh_phase,
        manual_authentication, TokenManager.load, h1, h2]
    · rw [Bool.not_eq_false] at h2
      refine ⟨⟨mTok, ⟨some mTok, now⟩, 0, 2, [(now, mTok), (now, mTok)]⟩, ?_, by simp⟩
      simp [check_authentication, auth_load_phase, auth_refresh_phase,
        manual_authentication, TokenManager.load, h1, h2]

/-! ## Theorems about the refresh frame property (C9) -/

/-- C9: whenever a `check_authentication` run takes the refresh branch
(`refreshCalls ≥ 1`), the manager keeps the `created_timestamp` it had after
the load phase — refresh replaces only the token payload (with its embedded
`expires_at`) and persists it; `created_timestamp` is written only by
credential issuance (`manual_authentication`) or by `load`. -/
theorem claim_C9_refresh_frame (env : AuthEnv) (token0 : Option Tok)
    (tm0 tm1 : TokenManager) (m1 : Nat) (saves1 : List (Int × Tok)) (r : AuthResult)
    (hload : auth_load_phase env token0 tm0 = .ok (tm1, m1, saves1))
    (hrun : check_authentication env token0 tm0 = .ok r)
    (hrefreshed : 1 ≤ r.refreshCalls) :
    r.metadata.created_timestamp = tm1.created_timestamp ∧
    r.metadata.token = some env.providerTok ∧
    r.manualAuths = m1 ∧
    r.saves = saves1 ++ [(tm1.created_timestamp, env.providerTok)] := by
  rw [check_authentication, hload] at hrun
  obtain ⟨tok1, ts1⟩ := tm1
  cases tok1 with
  | none => simp [auth_refresh_phase] at hrun
  | some t1 =>
    by_cases h1 : Tok.is_expired env.now t1 = false
    · simp only [auth_refresh_phase, h1, if_true, Except.ok.injEq] at hrun
      subst hrun
      simp at hrefreshed
    · rw [Bool.not_eq_false] at h1
      by_cases h2 : TokenManager.is_refresh_token_expired env.now ⟨some t1, ts1⟩ = false
      · simp only [auth_refresh_phase, h1, h2, Bool.true_eq_false, if_false, if_true,
          Except.ok.injEq] at hrun
        subst hrun
        simp
      · rw [Bool.not_eq_false] at h2
        simp only [auth_refresh_phase, h1, h2, Bool.true_eq_false, if_false,
          manual_authentication, Except.ok.injEq] at hrun
        subst hrun
        simp at hrefreshed

/-- Witness for C9: a run that loads a record (timestamp 50, expired access
token) and refreshes; the final manager keeps timestamp 50 and holds the
provider's new token. -/
theorem claim_C9_refresh_frame_witness :
    (⟨⟨"a2", "r2", 1900⟩, ⟨some ⟨"a2", "r2", 1900⟩, 50⟩, 1, 0,
        ([] : List (Int × Tok)) ++ [((50 : Int), (⟨"a2", "r2", 1900⟩ : Tok))]⟩ :
      AuthResult).metadata.created_timestamp =
        (⟨some ⟨"a", "r", 100⟩, 50⟩ : TokenManager).created_timestamp ∧
    (⟨⟨"a2", "r2", 1900⟩, ⟨some ⟨"a2", "r2", 1900⟩, 50⟩, 1, 0,
        ([] : List (Int × Tok)) ++ [((50 : Int), (⟨"a2", "r2", 1900⟩ : Tok))]⟩ :
      AuthResult).metadata.token =
        some (⟨100, some (some ⟨50, ⟨"a", "r", 100⟩⟩), ⟨"a2", "r2", 1900⟩,
          ⟨"m", "m", 0⟩⟩ : AuthEnv).providerTok ∧
    (⟨⟨"a2", "r2", 1900⟩, ⟨some ⟨"a2", "r2", 1900⟩, 50⟩, 1, 0,
        ([] : List (Int × Tok)) ++ [((50 : Int), (⟨"a2", "r2", 1900⟩ : Tok))]⟩ :
      AuthResult).manualAuths = 0 ∧
    (⟨⟨"a2", "r2", 1900⟩, ⟨some ⟨"a2", "r2", 1900⟩, 50⟩, 1, 0,
        ([] : List (Int × Tok)) ++ [((50 : Int), (⟨"a2", "r2", 1900⟩ : Tok))]⟩ :
      AuthResult).saves =
        ([] : List (Int × Tok)) ++ [((⟨some ⟨"a", "r", 100⟩, 50⟩ :
          TokenManager).created_timestamp,
          (⟨100, some (some ⟨50, ⟨"a", "r", 100⟩⟩), ⟨"a2", "r2", 1900⟩,
            ⟨"m", "m", 0⟩⟩ : AuthEnv).providerTok)] :=
  claim_C9_refresh_frame
    ⟨100, some (some ⟨50, ⟨"a", "r", 100⟩⟩), ⟨"a2", "r2", 1900⟩, ⟨"m", "m", 0⟩⟩
    none ⟨none, 0⟩ ⟨some ⟨"a", "r", 100⟩, 50⟩ 0 []
    ⟨⟨"a2", "r2", 1900⟩, ⟨some ⟨"a2", "r2", 1900⟩, 50⟩, 1, 0,
      ([] : List (Int × Tok)) ++ [((50 : Int), (⟨"a2", "r2", 1900⟩ : Tok))]⟩
    rfl rfl (by simp)

/-! ## Theorems about `consume` on invalid JSON (C10) -/

/-- C10: when the front queue item fails JSON decoding, `consume` does not
raise (the model is a total function): it returns `none` to the caller,
removes the item, and the `finally` block marks the queue item done. -/
theorem claim_C10_consume_bad_json {J : Type} (loads : String → Except String J)
    (m : String) (rest : List String) (e : String) (h : loads m = .error e) :
    CustomSocket.consume loads (m :: rest) = ⟨none, rest, true⟩ := by
  simp [CustomSocket.consume, h]

/-- Witness for C10 with a concrete decoder that rejects `"not json"`. -/
theorem claim_C10_consume_bad_json_witness :
    CustomSocket.consume
        (fun s => if s = "ok" then Except.ok () else Except.error "Expecting value")
        ["not json", "ok"] =
      ⟨none, ["ok"], true⟩ :=
  claim_C10_consume_bad_json
    (fun s => if s = "ok" then Except.ok () else Except.error "Expecting value")
    "not json" ["ok"] "Expecting value" rfl

end SchwabPy
